import Mathlib

/-!
# Verification of the job-trends backend

Shallow embedding of `src/backend` (models.py, schemas.py, app.py) of the
krishi18/job-trends repository: the relational state (Company, Skill, Job,
job_skills association table) is a record of lists, SQL queries become pure
list functions, and each FastAPI handler becomes a Lean function over that
state.  Fallible handler outcomes (`HTTPException`) are `Except` values;
handlers that catch every exception and answer a default payload are total
functions returning that payload type.
-/

namespace JobTrends

/-! ## Data model (src/backend/models.py)

`Company.company_name` and every Job column except the primary key are
nullable in the schema, hence `Option`.  `job_title`/`location` are kept as
`String` on `Job` writes because every write path (`create_job`,
`update_job`) supplies them from the pydantic schema where they are
required `str` fields. -/

structure Company where
  company_id : Nat
  company_name : Option String
deriving Repr, DecidableEq

structure Skill where
  skill_id : Nat
  skill_name : String
deriving Repr, DecidableEq

structure Job where
  job_id : Nat
  company_id : Option Nat := none
  job_title : String
  location : String
  min_salary : Option Int := none
  max_salary : Option Int := none
  work_year : Option Int := none
  job_category : Option String := none
  salary_currency : Option String := none
  salary : Option Int := none
  salary_in_usd : Option Int := none
  employee_residence : Option String := none
  experience_level : Option String := none
  employment_type : Option String := none
  work_setting : Option String := none
  company_size : Option String := none
deriving Repr, DecidableEq

/-- The relational state: three tables, the `job_skills` association table
as (job_id, skill_id) pairs, and the autoincrement counters. -/
structure DB where
  companies : List Company := []
  skills : List Skill := []
  jobs : List Job := []
  job_skills : List (Nat × Nat) := []
  next_company_id : Nat := 1
  next_skill_id : Nat := 1
  next_job_id : Nat := 1
deriving Repr, DecidableEq

/-! ## Request schema (src/backend/schemas.py, JobCreate) -/

structure JobCreate where
  job_title : String
  location : String
  min_salary : Option Int := none
  max_salary : Option Int := none
  company_name : Option String := none
  experience_level : Option String := none
  work_setting : Option String := none
  work_year : Option Int := none
  job_category : Option String := none
  company_size : Option String := none
  skills : List String := []
deriving Repr, DecidableEq

/-- FastAPI's `HTTPException(status_code, detail)`. -/
structure HTTPError where
  status_code : Nat
  detail : String
deriving Repr, DecidableEq

/-! ## Aggregates of GET /analytics/summary (app.py lines 58-151) -/

/-- Python's `x or d` on an optional integer: `None` and the falsy `0`
both fall back to `d` (app.py lines 284 and 354, `job.work_year or 2024`). -/
def pyOrInt (x : Option Int) (d : Int) : Int :=
  match x with
  | none => d
  | some v => if v = 0 then d else v

/-- The non-NULL `min_salary` values; SQL `AVG` skips NULLs. -/
def minSalaryVals (db : DB) : List Int :=
  db.jobs.filterMap (fun j => j.min_salary)

/-- `int(db.query(func.avg(Job.min_salary)).scalar() or 0)` (app.py lines
85 and 135).  A NULL average (no non-null rows) falls back to 0 via `or 0`;
otherwise Python's `int()` truncates the exact quotient toward zero, which
is `Int.tdiv`.  (MySQL's AVG rounds at the fourth decimal digit before the
truncation; that sub-integer rounding is not modelled.) -/
def avgMinSalary (db : DB) : Int :=
  let vals := minSalaryVals db
  if vals.length = 0 then 0 else Int.tdiv vals.sum (vals.length : Int)

/-- Rows of the association table carrying a given skill_id. -/
def skillAssocRows (db : DB) (sid : Nat) : List (Nat × Nat) :=
  db.job_skills.filter (fun p => p.2 = sid)

/-- The top-skills query (app.py lines 90-100): Skill inner-joined with
job_skills on skill_id (so skills with no association row are absent),
grouped by skill_name counting association rows, ordered descending by
count, limited to 10.  The engine's tie order is modelled as a stable sort
of the table in stored order. -/
def topSkills (db : DB) : List (String × Nat) :=
  let counted := db.skills.map (fun sk => (sk.skill_name, (skillAssocRows db sk.skill_id).length))
  let joined := counted.filter (fun p => p.2 ≠ 0)
  (List.insertionSort (fun a b => b.2 ≤ a.2) joined).take 10

/-- The non-null min_salary values of jobs posted in year `y`. -/
def yearVals (db : DB) (y : Int) : List Int :=
  (db.jobs.filter (fun j => j.work_year = some y)).filterMap (fun j => j.min_salary)

/-- The distinct non-null posting years, ascending (`GROUP BY work_year
ORDER BY work_year`, app.py lines 107-112). -/
def distinctYears (db : DB) : List Int :=
  List.insertionSort (fun a b => a ≤ b) ((db.jobs.filterMap (fun j => j.work_year)).dedup)

/-- The salary-trend rows `[{year, salary}]` (app.py lines 107-112, 137):
per distinct non-null year, `int()` of the group's AVG(min_salary).  When
some year-group has only NULL min_salary, its AVG is NULL and the
`int(s[1])` at line 137 raises TypeError (caught by the outer handler);
that raising outcome is `none`. -/
def salaryTrend (db : DB) : Option (List (Int × Int)) :=
  if (distinctYears db).all (fun y => (yearVals db y).length ≠ 0) then
    some ((distinctYears db).map
      (fun y => (y, Int.tdiv (yearVals db y).sum ((yearVals db y).length : Int))))
  else none

/-- Work-setting distribution (app.py lines 116-121): count of jobs per
distinct non-null work_setting; group order modelled as first occurrence. -/
def workSettingDist (db : DB) : List (String × Nat) :=
  ((db.jobs.filterMap (fun j => j.work_setting)).dedup).map
    (fun w => (w, (db.jobs.filter (fun j => j.work_setting = some w)).length))

/-- Company-size distribution (app.py lines 125-130). -/
def companySizeDist (db : DB) : List (String × Nat) :=
  ((db.jobs.filterMap (fun j => j.company_size)).dedup).map
    (fun w => (w, (db.jobs.filter (fun j => j.company_size = some w)).length))

/-- The payload of GET /analytics/summary (app.py lines 133-140). -/
structure Summary where
  total_jobs : Nat
  avg_salary : Int
  top_skills : List (String × Nat)
  salary_trend : List (Int × Int)
  work_setting : List (String × Nat)
  company_size : List (String × Nat)
deriving Repr, DecidableEq

/-- The all-zero/empty `defaults` dict (app.py lines 62-69). -/
def summaryDefaults : Summary :=
  { total_jobs := 0, avg_salary := 0, top_skills := [],
    salary_trend := [], work_setting := [], company_size := [] }

/-- Which of the summary's queries raise on this request.  The skills
query sits in its own inner try/except (app.py lines 89-104); every other
query is only guarded by the outer try/except. -/
structure FailCfg where
  countF : Bool := false
  avgF : Bool := false
  skillsF : Bool := false
  trendF : Bool := false
  wsetF : Bool := false
  csizeF : Bool := false
deriving Repr, DecidableEq

def FailCfg.none' : FailCfg := {}

/-- The store as a handler sees it: `down` is `get_db()` returning `None`;
`up db fl` is a live connection over state `db` on which the queries
flagged in `fl` raise. -/
inductive Store where
  | down : Store
  | up : DB → FailCfg → Store

/-- GET /analytics/summary (app.py lines 58-151).  Returns `defaults` when
the connection fails, when the Job table is empty, or when any query
outside the skills query's inner try/except raises (the outer except at
line 145 also catches the `int(None)` TypeError of result assembly, the
`salaryTrend = none` case).  A failing skills query only yields
`top_skills = []`; the rest of the payload is still computed. -/
def get_analytics_summary (s : Store) : Summary :=
  match s with
  | .down => summaryDefaults
  | .up db fl =>
    if fl.countF then summaryDefaults
    else if db.jobs.length = 0 then summaryDefaults
    else if fl.avgF || fl.trendF || fl.wsetF || fl.csizeF then summaryDefaults
    else
      match salaryTrend db with
      | none => summaryDefaults
      | some tr =>
        { total_jobs := db.jobs.length
          avg_salary := avgMinSalary db
          top_skills := if fl.skillsF then [] else topSkills db
          salary_trend := tr
          work_setting := workSettingDist db
          company_size := companySizeDist db }

/-! ## The compatibility projection of GET /jobs (app.py lines 196-239) -/

/-- The nested `{"company_name": ...}` object. -/
structure CompanyObj where
  company_name : Option String
deriving Repr, DecidableEq

/-- The nested `{"skill_name": ...}` object. -/
structure SkillObj where
  skill_name : String
deriving Repr, DecidableEq

/-- `job.company`: the Company row referenced by the foreign key, loaded
by `joinedload` (none when the key is NULL or dangling). -/
def lookupCompany (db : DB) (cid : Option Nat) : Option Company :=
  match cid with
  | none => none
  | some c => db.companies.find? (fun co => co.company_id = c)

/-- The Skill row a (job_id, skill_id) association row points at. -/
def resolveSkill (db : DB) (sid : Nat) : Option Skill :=
  db.skills.find? (fun sk => sk.skill_id = sid)

/-- `job.skills`: the Skill rows reached through the association table. -/
def jobSkillRows (db : DB) (jid : Nat) : List Skill :=
  (db.job_skills.filter (fun p => p.1 = jid)).filterMap (fun p => resolveSkill db p.2)

/-- The skill names associated with job `jid`, in association-row order. -/
def assocSkillNames (db : DB) (jid : Nat) : List String :=
  (jobSkillRows db jid).map (fun sk => sk.skill_name)

/-- One entry of the GET /jobs response: the `job_dict` literal of app.py
lines 197-239, a key per line.  The Python dict writes the key
`employment_type` twice with the same value; a dict keeps one. -/
structure JobDict where
  job_id : Nat
  job_title : String
  location : String
  min_salary : Option Int
  max_salary : Option Int
  work_setting : Option String
  work_year : Option Int
  company_size : Option String
  experience_level : Option String
  job_category : Option String
  employment_type : Option String
  Job_Title : String
  Job_Role : String
  job_role : String
  title : String
  Role : String
  Location : String
  company_location : String
  employee_residence : String
  salary : Option Int
  Salary : Option Int
  Salary_USD : Option Int
  salary_usd : Option Int
  salary_in_usd : Option Int
  salaryInUSD : Option Int
  Employment_Type : Option String
  employmentType : Option String
  EmploymentType : Option String
  employment : Option String
  company : Option CompanyObj
  Company' : Option String
  skills : List SkillObj
deriving Repr, DecidableEq

/-- The projection of one Job into its response dict (app.py lines
196-239).  Pure: it only reads the already-loaded row, its company and its
skills.  (`Company'` stands for the Python key `"Company"`, which holds
the bare company name.)  Note the dict's `salary_in_usd` and every other
salary alias carry `job.min_salary`, not the Job column `salary_in_usd`;
the `if job.skills else []` guard is the identity on the list. -/
def projectJob (db : DB) (j : Job) : JobDict :=
  let comp := lookupCompany db j.company_id
  { job_id := j.job_id
    job_title := j.job_title
    location := j.location
    min_salary := j.min_salary
    max_salary := j.max_salary
    work_setting := j.work_setting
    work_year := j.work_year
    company_size := j.company_size
    experience_level := j.experience_level
    job_category := j.job_category
    employment_type := j.employment_type
    Job_Title := j.job_title
    Job_Role := j.job_title
    job_role := j.job_title
    title := j.job_title
    Role := j.job_title
    Location := j.location
    company_location := j.location
    employee_residence := j.location
    salary := j.min_salary
    Salary := j.min_salary
    Salary_USD := j.min_salary
    salary_usd := j.min_salary
    salary_in_usd := j.min_salary
    salaryInUSD := j.min_salary
    Employment_Type := j.employment_type
    employmentType := j.employment_type
    EmploymentType := j.employment_type
    employment := j.employment_type
    company := comp.map (fun c => { company_name := c.company_name })
    Company' := comp.bind (fun c => c.company_name)
    skills := (jobSkillRows db j.job_id).map (fun sk => { skill_name := sk.skill_name }) }

/-! ## GET /jobs (app.py lines 153-252) -/

/-- Case-insensitive substring test, the `ilike(f"%{search}%")` filter.
(A `%` or `_` inside the search string would act as a SQL wildcard; no
claim exercises that, and it is modelled as a plain character.) -/
def ilikeContains (field pat : String) : Bool :=
  decide (pat.toLower.toList <:+: field.toLower.toList)

/-- The search filter (app.py lines 174-179): applied only when `search`
is truthy (a `None` or empty string means no filter), matching title OR
location. -/
def jobMatches (search : Option String) (j : Job) : Bool :=
  match search with
  | none => true
  | some s =>
    if s = "" then true
    else ilikeContains j.job_title s || ilikeContains j.location s

/-- GET /jobs (app.py lines 153-252).  `skip` and `limit` arrive as plain
`int` query parameters — FastAPI applies no range constraint.  The handler
never signals an HTTP error: a failed connection or a raising query is
caught and answered with `[]` (lines 161-164, 245-249); a negative OFFSET
or LIMIT is rejected by MySQL, which lands in the same except branch. -/
def get_jobs_list (store : Option DB) (search : Option String) (skip limit : Int) :
    Except HTTPError (List JobDict) :=
  match store with
  | none => .ok []
  | some db =>
    if skip < 0 ∨ limit < 0 then .ok []
    else
      let filtered := db.jobs.filter (fun j => jobMatches search j)
      .ok (((filtered.map (fun j => projectJob db j)).drop skip.toNat).take limit.toNat)

/-! ## POST /jobs (app.py lines 254-319) -/

/-- `db.query(Company).filter_by(company_name=name).first()` followed by
creation when absent (app.py lines 264-271; same code in update_job lines
337-342).  SQLAlchemy turns `filter_by(company_name=None)` into
`IS NULL`, which `Option` equality mirrors. -/
def findOrCreateCompany (db : DB) (name : Option String) : Company × DB :=
  match db.companies.find? (fun c => c.company_name = name) with
  | some c => (c, db)
  | none =>
    let c : Company := { company_id := db.next_company_id, company_name := name }
    (c, { db with companies := db.companies ++ [c],
                  next_company_id := db.next_company_id + 1 })

/-- Find-or-create of one Skill by name (app.py lines 290-293 and
360-363). -/
def findOrCreateSkill (db : DB) (name : String) : Skill × DB :=
  match db.skills.find? (fun sk => sk.skill_name = name) with
  | some sk => (sk, db)
  | none =>
    let sk : Skill := { skill_id := db.next_skill_id, skill_name := name }
    (sk, { db with skills := db.skills ++ [sk],
                   next_skill_id := db.next_skill_id + 1 })

/-- The skills loop: find-or-create each name and append an association
row for job `jid`.  (With `autoflush=False` a duplicate name inside one
request would re-create the pending skill and violate the association
primary key at commit; theorems over requests therefore assume the
request's skill list has no duplicates.)  One iteration of the loop:
find-or-create the skill and append its association row for job `jid`. -/
def addSkillStep (db : DB) (jid : Nat) (name : String) : DB :=
  let p := findOrCreateSkill db name
  { p.2 with job_skills := p.2.job_skills ++ [(jid, p.1.skill_id)] }

def addSkills (db : DB) (jid : Nat) (names : List String) : DB :=
  names.foldl (fun acc name => addSkillStep acc jid name) db

/-- The response payload of POST /jobs and PUT /jobs/{id} (app.py lines
301-309 and 369-377). -/
structure JobResult where
  job_id : Nat
  job_title : String
  location : String
  min_salary : Option Int
  max_salary : Option Int
  company : CompanyObj
  skills : List SkillObj
deriving Repr, DecidableEq

/-- The Job row inserted by create_job (app.py lines 274-285):
`employment_type` and the legacy salary columns are never set;
`work_year` gets `job.work_year or 2024`. -/
def newJobRow (jc : JobCreate) (jid : Nat) (cid : Nat) : Job :=
  { job_id := jid
    company_id := some cid
    job_title := jc.job_title
    location := jc.location
    min_salary := jc.min_salary
    max_salary := jc.max_salary
    experience_level := jc.experience_level
    work_setting := jc.work_setting
    job_category := jc.job_category
    company_size := jc.company_size
    work_year := some (pyOrInt jc.work_year 2024) }

/-- POST /jobs (app.py lines 254-319): find-or-create the company, insert
the Job row, find-or-create each skill and associate it, return the
created payload.  The handler's 500 branches (connection failure, commit
error) carry no state change that the claims touch and are not modelled;
the success path is total here. -/
def create_job (db : DB) (jc : JobCreate) : JobResult × DB :=
  let pc := findOrCreateCompany db jc.company_name
  let company := pc.1
  let db1 := pc.2
  let jid := db1.next_job_id
  let row := newJobRow jc jid company.company_id
  let db2 := addSkills
    { db1 with jobs := db1.jobs ++ [row], next_job_id := jid + 1 } jid jc.skills
  ({ job_id := jid
     job_title := jc.job_title
     location := jc.location
     min_salary := jc.min_salary
     max_salary := jc.max_salary
     company := { company_name := company.company_name }
     skills := (jobSkillRows db2 jid).map (fun sk => { skill_name := sk.skill_name }) },
   db2)

/-! ## PUT /jobs/{id} and DELETE /jobs/{id} (app.py lines 321-419) -/

/-- The body of PUT /jobs/{id} once the Job was found (app.py lines
336-377): find-or-create the company, overwrite every field of the row
from the request (full replacement; `work_year` again via `or 2024`),
clear the job's association rows (`existing_job.skills.clear()`) and
re-add one per requested skill name, and build the updated payload. -/
def update_job_apply (db : DB) (jid : Nat) (jc : JobCreate) : JobResult × DB :=
  let pc := findOrCreateCompany db jc.company_name
  let company := pc.1
  let db1 := pc.2
  let row := newJobRow jc jid company.company_id
  let db2 := { db1 with
    jobs := db1.jobs.map (fun j => if j.job_id = jid then row else j),
    job_skills := db1.job_skills.filter (fun p => p.1 ≠ jid) }
  let db3 := addSkills db2 jid jc.skills
  ({ job_id := jid
     job_title := jc.job_title
     location := jc.location
     min_salary := jc.min_salary
     max_salary := jc.max_salary
     company := { company_name := company.company_name }
     skills := (jobSkillRows db3 jid).map (fun sk => { skill_name := sk.skill_name }) },
   db3)

/-- PUT /jobs/{id} (app.py lines 321-389): 404 and no state change when no
Job has the id; otherwise the found-branch body above. -/
def update_job (db : DB) (jid : Nat) (jc : JobCreate) :
    (Except HTTPError JobResult) × DB :=
  match db.jobs.find? (fun j => j.job_id = jid) with
  | none => (.error { status_code := 404, detail := "Job not found" }, db)
  | some _ => (.ok (update_job_apply db jid jc).1, (update_job_apply db jid jc).2)

/-- The `{"message", "job_id"}` payload of DELETE /jobs/{id}. -/
structure DeleteResult where
  message : String
  job_id : Nat
deriving Repr, DecidableEq

/-- DELETE /jobs/{id} (app.py lines 391-419): 404 and no change when the
id is absent; otherwise `db.delete(job)` removes the Job row and, through
the relationship's secondary table handling, every job_skills row of that
job, and the handler confirms with the deleted id. -/
def delete_job (db : DB) (jid : Nat) : (Except HTTPError DeleteResult) × DB :=
  match db.jobs.find? (fun j => j.job_id = jid) with
  | none => (.error { status_code := 404, detail := "Job not found" }, db)
  | some _ =>
    (.ok { message := "Job deleted successfully", job_id := jid },
     { db with jobs := db.jobs.filter (fun j => j.job_id ≠ jid),
               job_skills := db.job_skills.filter (fun p => p.1 ≠ jid) })

/-- Modelled from the spec: the repository's src/ has no `GET /jobs/{id}`
route (the spec notes the route set drifted across revisions and only
other revisions carry it).  Per the spec: "returns one Job or signals
NotFound", "projected Job | 404 if absent" — look the id up and answer the
§4.3 projection of the row, or a 404. -/
def get_job_by_id (db : DB) (jid : Nat) : Except HTTPError JobDict :=
  match db.jobs.find? (fun j => j.job_id = jid) with
  | none => .error { status_code := 404, detail := "Job not found" }
  | some j => .ok (projectJob db j)

/-- Ids already handed out are below the autoincrement counter; holds for
every state reachable through the handlers from an empty store. -/
def jobsWF (db : DB) : Prop :=
  ∀ j ∈ db.jobs, j.job_id < db.next_job_id

instance (db : DB) : Decidable (jobsWF db) := by
  unfold jobsWF; infer_instance

/-- Well-formedness of the skills table and its references, maintained by
the storage engine: primary keys already assigned are below the
autoincrement counter, skill ids are unique, and association rows point
below the counter. -/
def skillsWF (db : DB) : Prop :=
  (∀ sk ∈ db.skills, sk.skill_id < db.next_skill_id) ∧
  ((db.skills.map (fun sk => sk.skill_id)).Nodup) ∧
  (∀ p ∈ db.job_skills, p.2 < db.next_skill_id)

instance (db : DB) : Decidable (skillsWF db) := by
  unfold skillsWF; infer_instance

/-! ## Frame lemmas about the find-or-create steps -/

theorem find?_append_fresh {α : Type} (p : α → Bool) (l : List α) (a : α)
    (h : ∀ x ∈ l, ¬ p x) (ha : p a) : (l ++ [a]).find? p = some a := by
  rw [List.find?_append, List.find?_eq_none.mpr h]
  simp [List.find?, ha]

theorem findOrCreateCompany_frame (db : DB) (name : Option String) :
    (findOrCreateCompany db name).2.skills = db.skills ∧
    (findOrCreateCompany db name).2.jobs = db.jobs ∧
    (findOrCreateCompany db name).2.job_skills = db.job_skills ∧
    (findOrCreateCompany db name).2.next_skill_id = db.next_skill_id ∧
    (findOrCreateCompany db name).2.next_job_id = db.next_job_id ∧
    (findOrCreateCompany db name).1.company_name = name ∧
    (findOrCreateCompany db name).1 ∈ (findOrCreateCompany db name).2.companies ∧
    (∀ co ∈ db.companies, co ∈ (findOrCreateCompany db name).2.companies) := by
  unfold findOrCreateCompany
  cases h : db.companies.find? (fun c => c.company_name = name) with
  | none =>
    refine ⟨rfl, rfl, rfl, rfl, rfl, rfl, ?_, ?_⟩
    · simp
    · intro co hco; simp [hco]
  | some c =>
    refine ⟨rfl, rfl, rfl, rfl, rfl, ?_, ?_, fun _ h => h⟩
    · show c.company_name = name
      simpa using List.find?_some h
    · show c ∈ db.companies
      exact List.mem_of_find?_eq_some h

theorem findOrCreateSkill_frame (db : DB) (name : String) :
    (findOrCreateSkill db name).2.companies = db.companies ∧
    (findOrCreateSkill db name).2.jobs = db.jobs ∧
    (findOrCreateSkill db name).2.job_skills = db.job_skills ∧
    (findOrCreateSkill db name).2.next_company_id = db.next_company_id ∧
    (findOrCreateSkill db name).2.next_job_id = db.next_job_id ∧
    (findOrCreateSkill db name).1.skill_name = name ∧
    (findOrCreateSkill db name).1 ∈ (findOrCreateSkill db name).2.skills ∧
    (∀ sk ∈ db.skills, sk ∈ (findOrCreateSkill db name).2.skills) := by
  unfold findOrCreateSkill
  cases h : db.skills.find? (fun sk => sk.skill_name = name) with
  | none =>
    refine ⟨rfl, rfl, rfl, rfl, rfl, rfl, ?_, ?_⟩
    · simp
    · intro sk hsk; simp [hsk]
  | some sk =>
    refine ⟨rfl, rfl, rfl, rfl, rfl, ?_, ?_, fun _ h => h⟩
    · show sk.skill_name = name
      simpa using List.find?_some h
    · show sk ∈ db.skills
      exact List.mem_of_find?_eq_some h

/-- In a list of skills with pairwise-distinct ids, looking a member's id
up finds that member. -/
theorem find?_skill_id_of_mem {l : List Skill}
    (hnd : (l.map (fun sk => sk.skill_id)).Nodup)
    {sk : Skill} (h : sk ∈ l) :
    l.find? (fun k => k.skill_id = sk.skill_id) = some sk := by
  induction l with
  | nil => cases h
  | cons k t ih =>
    rcases List.mem_cons.mp h with rfl | ht
    · simp [List.find?]
    · have hk : ¬ (k.skill_id = sk.skill_id) := by
        intro he
        have hm : sk.skill_id ∈ t.map (fun s => s.skill_id) :=
          List.mem_map_of_mem _ ht
        have hm' : k.skill_id ∈ t.map (fun s => s.skill_id) := by
          rw [he]; exact hm
        exact (List.nodup_cons.mp hnd).1 hm'
      have hd : (decide (k.skill_id = sk.skill_id)) = false := decide_eq_false hk
      simp only [List.find?, hd]
      exact ih (List.nodup_cons.mp hnd).2 ht

/-- With unique skill ids, resolving a member's id finds that member. -/
theorem resolve_of_mem (db : DB)
    (hnd : (db.skills.map (fun sk => sk.skill_id)).Nodup)
    {sk : Skill} (h : sk ∈ db.skills) :
    resolveSkill db sk.skill_id = some sk :=
  find?_skill_id_of_mem hnd h

theorem findOrCreateCompany_skillsWF (db : DB) (name : Option String)
    (h : skillsWF db) : skillsWF (findOrCreateCompany db name).2 := by
  obtain ⟨hf1, _, hf3, hf4, _, _, _, _⟩ := findOrCreateCompany_frame db name
  unfold skillsWF at h ⊢
  rw [hf1, hf3, hf4]
  exact h

theorem addSkillStep_frame (db : DB) (jid : Nat) (name : String) :
    (addSkillStep db jid name).jobs = db.jobs ∧
    (addSkillStep db jid name).companies = db.companies ∧
    (addSkillStep db jid name).next_job_id = db.next_job_id ∧
    (addSkillStep db jid name).next_company_id = db.next_company_id ∧
    (∀ sk ∈ db.skills, sk ∈ (addSkillStep db jid name).skills) := by
  have h := findOrCreateSkill_frame db name
  exact ⟨h.2.1, h.1, h.2.2.2.2.1, h.2.2.2.1,
    fun sk hsk => h.2.2.2.2.2.2.2 sk hsk⟩

theorem addSkillStep_wf (db : DB) (jid : Nat) (name : String) (h : skillsWF db) :
    skillsWF (addSkillStep db jid name) := by
  obtain ⟨h1, h2, h3⟩ := h
  unfold skillsWF addSkillStep findOrCreateSkill
  cases hf : db.skills.find? (fun sk => sk.skill_name = name) with
  | some sk =>
    refine ⟨h1, h2, ?_⟩
    intro p hp
    rcases List.mem_append.mp hp with hp | hp
    · exact h3 p hp
    · have hpe : p = (jid, sk.skill_id) := by simpa using hp
      subst hpe
      exact h1 sk (List.mem_of_find?_eq_some hf)
  | none =>
    refine ⟨?_, ?_, ?_⟩
    · intro sk hsk
      rcases List.mem_append.mp hsk with hsk | hsk
      · exact Nat.lt_succ_of_lt (h1 sk hsk)
      · have hke : sk = ⟨db.next_skill_id, name⟩ := by simpa using hsk
        subst hke; exact Nat.lt_succ_self _
    · rw [List.map_append]
      refine List.Nodup.append h2 (by simp) ?_
      intro x hx hx'
      have hxe : x = db.next_skill_id := by simpa using hx'
      subst hxe
      obtain ⟨sk, hsk, he⟩ := List.mem_map.mp hx
      have := h1 sk hsk
      omega
    · intro p hp
      rcases List.mem_append.mp hp with hp | hp
      · exact Nat.lt_succ_of_lt (h3 p hp)
      · have hpe : p = (jid, db.next_skill_id) := by simpa using hp
        subst hpe; exact Nat.lt_succ_self _

/-- Association rows whose skill id was issued before the step still
resolve to the same row afterwards: the step adds at most one skill, with
the fresh id `next_skill_id`. -/
theorem resolve_addSkillStep_lt (db : DB) (jid : Nat) (name : String)
    {sid : Nat} (hsid : sid < db.next_skill_id) :
    resolveSkill (addSkillStep db jid name) sid = resolveSkill db sid := by
  unfold resolveSkill addSkillStep findOrCreateSkill
  cases hf : db.skills.find? (fun sk => sk.skill_name = name) with
  | some sk => rfl
  | none =>
    show List.find? (fun k => decide (k.skill_id = sid))
        (db.skills ++ [{ skill_id := db.next_skill_id, skill_name := name }])
      = List.find? (fun k => decide (k.skill_id = sid)) db.skills
    rw [List.find?_append]
    have hnone : List.find? (fun k => decide (k.skill_id = sid))
        [({ skill_id := db.next_skill_id, skill_name := name } : Skill)] = none := by
      refine List.find?_eq_none.mpr ?_
      intro x hx
      have hxe : x = { skill_id := db.next_skill_id, skill_name := name } := by
        simpa using hx
      subst hxe
      simp only [decide_eq_true_eq]
      omega
    rw [hnone, Option.or_none]

/-- The step's new association row resolves to the found-or-created
skill, which carries the requested name. -/
theorem resolve_addSkillStep_self (db : DB) (jid : Nat) (name : String)
    (h : skillsWF db) :
    resolveSkill (addSkillStep db jid name) (findOrCreateSkill db name).1.skill_id =
      some (findOrCreateSkill db name).1 := by
  have hwf := addSkillStep_wf db jid name h
  have hmem : (findOrCreateSkill db name).1 ∈ (addSkillStep db jid name).skills :=
    (findOrCreateSkill_frame db name).2.2.2.2.2.2.1
  exact resolve_of_mem _ hwf.2.1 hmem

theorem addSkillStep_assoc (db : DB) (jid : Nat) (name : String) (h : skillsWF db) :
    assocSkillNames (addSkillStep db jid name) jid = assocSkillNames db jid ++ [name] := by
  unfold assocSkillNames jobSkillRows
  have hjs : (addSkillStep db jid name).job_skills
      = db.job_skills ++ [(jid, (findOrCreateSkill db name).1.skill_id)] := by
    show (findOrCreateSkill db name).2.job_skills ++ _ = _
    rw [(findOrCreateSkill_frame db name).2.2.1]
  rw [hjs, List.filter_append, List.filterMap_append, List.map_append]
  have hfilter1 : List.filterMap (fun p => resolveSkill (addSkillStep db jid name) p.2)
      (db.job_skills.filter (fun p => p.1 = jid))
      = List.filterMap (fun p => resolveSkill db p.2)
          (db.job_skills.filter (fun p => p.1 = jid)) := by
    apply List.filterMap_congr
    intro p hp
    exact resolve_addSkillStep_lt db jid name (h.2.2 p (List.mem_of_mem_filter hp))
  rw [hfilter1]
  congr 1
  have hf2 : List.filter (fun p => decide (p.1 = jid))
      [((jid, (findOrCreateSkill db name).1.skill_id) : Nat × Nat)]
      = [(jid, (findOrCreateSkill db name).1.skill_id)] := by simp
  rw [hf2]
  simp [List.filterMap, resolve_addSkillStep_self db jid name h,
        (findOrCreateSkill_frame db name).2.2.2.2.2.1]

/-- Summary behavior of the whole skills loop: it preserves the other
tables and the skills invariant, and appends exactly the requested names
(in order) to job `jid`'s association list. -/
theorem addSkills_spec (names : List String) (db : DB) (jid : Nat) (h : skillsWF db) :
    skillsWF (addSkills db jid names) ∧
    (addSkills db jid names).jobs = db.jobs ∧
    (addSkills db jid names).companies = db.companies ∧
    (addSkills db jid names).next_job_id = db.next_job_id ∧
    (addSkills db jid names).next_company_id = db.next_company_id ∧
    assocSkillNames (addSkills db jid names) jid = assocSkillNames db jid ++ names := by
  induction names generalizing db with
  | nil => exact ⟨h, rfl, rfl, rfl, rfl, by simp [addSkills]⟩
  | cons n rest ih =>
    have hstep : addSkills db jid (n :: rest)
        = addSkills (addSkillStep db jid n) jid rest := rfl
    have hwf := addSkillStep_wf db jid n h
    obtain ⟨w1, w2, w3, w4, w5, w6⟩ := ih (addSkillStep db jid n) hwf
    obtain ⟨f1, f2, f3, f4, _⟩ := addSkillStep_frame db jid n
    rw [hstep]
    refine ⟨w1, w2.trans f1, w3.trans f2, w4.trans f3, w5.trans f4, ?_⟩
    rw [w6, addSkillStep_assoc db jid n h, List.append_assoc]
    rfl

/-- The skills loop touches only the skills table, the association table
and the skill counter. -/
theorem addSkills_frame (names : List String) (db : DB) (jid : Nat) :
    (addSkills db jid names).jobs = db.jobs ∧
    (addSkills db jid names).companies = db.companies ∧
    (addSkills db jid names).next_job_id = db.next_job_id ∧
    (addSkills db jid names).next_company_id = db.next_company_id := by
  induction names generalizing db with
  | nil => exact ⟨rfl, rfl, rfl, rfl⟩
  | cons n rest ih =>
    obtain ⟨w1, w2, w3, w4⟩ := ih (addSkillStep db jid n)
    obtain ⟨f1, f2, f3, f4, _⟩ := addSkillStep_frame db jid n
    exact ⟨w1.trans f1, w2.trans f2, w3.trans f3, w4.trans f4⟩

/-- Starting from a state with no association row for `jid`, the skills
loop leaves exactly the requested names associated with `jid`. -/
theorem assoc_of_cleared (db2 : DB) (jid : Nat) (names : List String)
    (hwf2 : skillsWF db2)
    (hclean : ∀ p ∈ db2.job_skills, p.1 ≠ jid) :
    assocSkillNames (addSkills db2 jid names) jid = names := by
  have h := (addSkills_spec names db2 jid hwf2).2.2.2.2.2
  have h0 : assocSkillNames db2 jid = [] := by
    unfold assocSkillNames jobSkillRows
    have hnil : db2.job_skills.filter (fun p => p.1 = jid) = [] := by
      refine List.filter_eq_nil_iff.mpr ?_
      intro p hp
      simpa using hclean p hp
    rw [hnil]
    rfl
  rw [h, h0]
  rfl

theorem findOrCreateCompany_fresh (db : DB) (name : Option String)
    (hfresh : ∀ co ∈ db.companies, co.company_name ≠ name) :
    findOrCreateCompany db name
      = ({ company_id := db.next_company_id, company_name := name },
         { db with
             companies := db.companies
               ++ [{ company_id := db.next_company_id, company_name := name }],
             next_company_id := db.next_company_id + 1 }) := by
  unfold findOrCreateCompany
  have hnone : db.companies.find? (fun c => c.company_name = name) = none :=
    List.find?_eq_none.mpr (fun c hc => by simpa using hfresh c hc)
  rw [hnone]

theorem findOrCreateCompany_found (db : DB) (name : Option String) (c : Company)
    (hf : db.companies.find? (fun co => co.company_name = name) = some c) :
    findOrCreateCompany db name = (c, db) := by
  unfold findOrCreateCompany
  rw [hf]

/-- POST /jobs decomposed: the assigned id is the job counter, the
companies table is whatever find-or-create left, and the Job table gains
exactly the new row. -/
theorem create_job_frame (db : DB) (jc : JobCreate) :
    (create_job db jc).1.job_id = db.next_job_id ∧
    (create_job db jc).2.companies = (findOrCreateCompany db jc.company_name).2.companies ∧
    (create_job db jc).2.jobs
      = db.jobs ++ [newJobRow jc db.next_job_id
          (findOrCreateCompany db jc.company_name).1.company_id] := by
  obtain ⟨f1, f2, f3, f4, f5, f6, f7, f8⟩ := findOrCreateCompany_frame db jc.company_name
  refine ⟨?_, ?_, ?_⟩
  · show (findOrCreateCompany db jc.company_name).2.next_job_id = db.next_job_id
    exact f5
  · show (addSkills _ _ jc.skills).companies = _
    rw [(addSkills_frame jc.skills _ _).2.1]
  · show (addSkills _ _ jc.skills).jobs = _
    rw [(addSkills_frame jc.skills _ _).1]
    show (findOrCreateCompany db jc.company_name).2.jobs ++ _ = _
    rw [f2, f5]

theorem update_job_apply_jobs (db : DB) (jid : Nat) (jc : JobCreate) :
    (update_job_apply db jid jc).2.jobs
      = db.jobs.map (fun j => if j.job_id = jid
          then newJobRow jc jid (findOrCreateCompany db jc.company_name).1.company_id
          else j) := by
  show (addSkills _ _ jc.skills).jobs = _
  rw [(addSkills_frame jc.skills _ _).1]
  show (findOrCreateCompany db jc.company_name).2.jobs.map _ = _
  rw [(findOrCreateCompany_frame db jc.company_name).2.1]

theorem update_job_apply_companies (db : DB) (jid : Nat) (jc : JobCreate) :
    (update_job_apply db jid jc).2.companies
      = (findOrCreateCompany db jc.company_name).2.companies := by
  show (addSkills _ _ jc.skills).companies = _
  rw [(addSkills_frame jc.skills _ _).2.1]

/-- The skill replacement of PUT /jobs/{id}: association rows of `jid`
are cleared and re-created from the request, so exactly the requested
names remain. -/
theorem update_job_apply_assoc (db : DB) (jid : Nat) (jc : JobCreate)
    (hwf : skillsWF db) :
    assocSkillNames (update_job_apply db jid jc).2 jid = jc.skills := by
  have hwf1 := findOrCreateCompany_skillsWF db jc.company_name hwf
  show assocSkillNames (addSkills _ jid jc.skills) jid = jc.skills
  refine assoc_of_cleared _ jid jc.skills
    ⟨hwf1.1, hwf1.2.1, fun p hp => hwf1.2.2 p (List.mem_of_mem_filter hp)⟩
    (fun p hp => by simpa using List.of_mem_filter hp)

theorem update_job_absent (db : DB) (jid : Nat) (jc : JobCreate)
    (habs : ∀ j ∈ db.jobs, j.job_id ≠ jid) :
    update_job db jid jc
      = (.error { status_code := 404, detail := "Job not found" }, db) := by
  have hfind : db.jobs.find? (fun j => j.job_id = jid) = none :=
    List.find?_eq_none.mpr (fun j hj => by simpa using habs j hj)
  simp only [update_job, hfind]

theorem update_job_found (db : DB) (jid : Nat) (jc : JobCreate)
    (hex : ∃ j ∈ db.jobs, j.job_id = jid) :
    update_job db jid jc
      = (.ok (update_job_apply db jid jc).1, (update_job_apply db jid jc).2) := by
  obtain ⟨j0, hj0, hid⟩ := hex
  cases hfind : db.jobs.find? (fun j => j.job_id = jid) with
  | none =>
    have := List.find?_eq_none.mp hfind j0 hj0
    simp [hid] at this
  | some jf => simp only [update_job, hfind]

theorem delete_job_absent (db : DB) (jid : Nat)
    (habs : ∀ j ∈ db.jobs, j.job_id ≠ jid) :
    delete_job db jid
      = (.error { status_code := 404, detail := "Job not found" }, db) := by
  have hfind : db.jobs.find? (fun j => j.job_id = jid) = none :=
    List.find?_eq_none.mpr (fun j hj => by simpa using habs j hj)
  simp only [delete_job, hfind]

theorem delete_job_found (db : DB) (jid : Nat)
    (hex : ∃ j ∈ db.jobs, j.job_id = jid) :
    delete_job db jid
      = (.ok { message := "Job deleted successfully", job_id := jid },
         { db with jobs := db.jobs.filter (fun j => j.job_id ≠ jid),
                   job_skills := db.job_skills.filter (fun p => p.1 ≠ jid) }) := by
  obtain ⟨j0, hj0, hid⟩ := hex
  cases hfind : db.jobs.find? (fun j => j.job_id = jid) with
  | none =>
    have := List.find?_eq_none.mp hfind j0 hj0
    simp [hid] at this
  | some jf => simp only [delete_job, hfind]

/-- With the association table's composite primary key (rows pairwise
distinct), a skill's association rows name pairwise-distinct jobs, so the
row count is the distinct-job count. -/
theorem assoc_rows_count (db : DB) (sid : Nat) (hrows : db.job_skills.Nodup) :
    ((skillAssocRows db sid).map (fun q => q.1)).dedup.length
      = (skillAssocRows db sid).length := by
  have h1 : (skillAssocRows db sid).Nodup := hrows.filter _
  have h2 : ((skillAssocRows db sid).map (fun q => q.1)).Nodup := by
    refine h1.map_on ?_
    intro x hx y hy he
    have hx2 : x.2 = sid := by simpa using List.of_mem_filter hx
    have hy2 : y.2 = sid := by simpa using List.of_mem_filter hy
    exact Prod.ext he (hx2.trans hy2.symm)
  rw [List.dedup_eq_self.mpr h2, List.length_map]

/-! ## Concrete fixtures used by witnesses and counterexamples -/

def jobA : Job :=
  { job_id := 1, job_title := "Data Engineer", location := "Berlin",
    min_salary := some 100, work_year := some 2024 }

def jobB : Job :=
  { job_id := 2, job_title := "Analyst", location := "Paris",
    min_salary := some 50, work_year := some 2024 }

/-- One-job store. -/
def exDB1 : DB := { jobs := [jobA], next_job_id := 2 }

/-- Two-job store. -/
def exDB2 : DB := { jobs := [jobA, jobB], next_job_id := 3 }

/-- Skills x and y of the spec's top-skills example. -/
def skX : Skill := { skill_id := 1, skill_name := "python" }

def skY : Skill := { skill_id := 2, skill_name := "sql" }

/-- The spec's §8 top-skills scenario: job A has skills {x, y}, job B has
skill {x}. -/
def dbTop : DB :=
  { skills := [skX, skY], jobs := [jobA, jobB],
    job_skills := [(1, 1), (1, 2), (2, 1)],
    next_job_id := 3, next_skill_id := 3 }

/-- Two jobs with minimum salaries 0 and 1: the arithmetic mean is 1/2. -/
def exDBfrac : DB :=
  { jobs := [{ job_id := 1, job_title := "t", location := "l", min_salary := some 0 },
             { job_id := 2, job_title := "t", location := "l", min_salary := some 1 }],
    next_job_id := 3 }

/-- The spec's §8 salary dataset [50000, 70000, 90000]. -/
def exDBsal : DB :=
  { jobs := [{ job_id := 1, job_title := "t", location := "l", min_salary := some 50000 },
             { job_id := 2, job_title := "t", location := "l", min_salary := some 70000 },
             { job_id := 3, job_title := "t", location := "l", min_salary := some 90000 }],
    next_job_id := 4 }

/-- A request fixture. -/
def exJC : JobCreate :=
  { job_title := "ML Engineer", location := "Remote",
    min_salary := some 90, max_salary := some 120,
    company_name := some "acme", skills := ["python", "sql"] }

/-! ## C1 -/

/-- C1, counterexample: with one job stored and an error raised by the
top-skills aggregate query (the one query wrapped in its own inner
try/except, app.py lines 89-104), `get_analytics_summary` returns a
payload with `total_jobs = 1` — not the all-zero/empty default structure
the claim requires whenever "the underlying aggregate query raises any
error". -/
theorem C1_counterexample :
    ({ skillsF := true } : FailCfg).skillsF = true ∧
    get_analytics_summary (.up exDB1 { skillsF := true }) ≠ summaryDefaults ∧
    (get_analytics_summary (.up exDB1 { skillsF := true })).total_jobs = 1 := by
  refine ⟨rfl, ?_, ?_⟩ <;> decide

/-- C1, amended: the handler always returns a payload (never propagates an
error); it returns the all-zero/empty default structure when the store is
unreachable, when the Job table is empty, or when any aggregate query
*outside the top-skills query's inner try/except* raises (including the
result-assembly TypeError on a NULL group average, `salaryTrend = none`);
when only the top-skills query raises, it returns the real summary with
`top_skills = []` instead. -/
theorem C1_amended (db : DB) (fl : FailCfg) :
    (get_analytics_summary .down = summaryDefaults) ∧
    (db.jobs = [] → get_analytics_summary (.up db fl) = summaryDefaults) ∧
    (fl.countF = true ∨ fl.avgF = true ∨ fl.trendF = true ∨ fl.wsetF = true ∨
        fl.csizeF = true →
      get_analytics_summary (.up db fl) = summaryDefaults) ∧
    (salaryTrend db = none → get_analytics_summary (.up db fl) = summaryDefaults) ∧
    (∀ tr, db.jobs ≠ [] → salaryTrend db = some tr →
      fl.countF = false → fl.avgF = false → fl.trendF = false → fl.wsetF = false →
      fl.csizeF = false →
      get_analytics_summary (.up db fl) =
        { total_jobs := db.jobs.length
          avg_salary := avgMinSalary db
          top_skills := if fl.skillsF then [] else topSkills db
          salary_trend := tr
          work_setting := workSettingDist db
          company_size := companySizeDist db }) := by
  refine ⟨rfl, ?_, ?_, ?_, ?_⟩
  · intro h
    unfold get_analytics_summary
    cases hc : fl.countF <;> simp [h]
  · intro h
    unfold get_analytics_summary
    cases hc : fl.countF
    · by_cases hz : db.jobs.length = 0
      · simp [hz]
      · rcases h with h | h | h | h | h <;> simp_all
    · simp [hc]
  · intro h
    unfold get_analytics_summary
    cases hc : fl.countF
    · by_cases hz : db.jobs.length = 0
      · simp [hz]
      · by_cases hf : (fl.avgF || fl.trendF || fl.wsetF || fl.csizeF) = true
        · simp [hz, hf]
        · simp [hz, hf, h]
    · simp [hc]
  · intro tr hne htr h1 h2 h3 h4 h5
    unfold get_analytics_summary
    have hz : ¬ db.jobs.length = 0 := by simpa using hne
    simp [h1, h2, h3, h4, h5, hz, htr]

/-- Witness for C1's amended theorem: the one-job store with a failing
top-skills query yields the real summary with an empty skills list. -/
theorem C1_amended_witness :
    get_analytics_summary (.up exDB1 { skillsF := true }) =
      { total_jobs := exDB1.jobs.length
        avg_salary := avgMinSalary exDB1
        top_skills := if ({ skillsF := true } : FailCfg).skillsF then [] else topSkills exDB1
        salary_trend := [(2024, 100)]
        work_setting := workSettingDist exDB1
        company_size := companySizeDist exDB1 } :=
  (C1_amended exDB1 { skillsF := true }).2.2.2.2 [(2024, 100)]
    (by decide) (by decide) rfl rfl rfl rfl rfl

/-! ## C2 -/

/-- Fixture for witnesses: a second create request for the same company. -/
def exJC2 : JobCreate :=
  { job_title := "Data Scientist", location := "Onsite",
    min_salary := some 80, company_name := some "acme", skills := ["python"] }

/-- C2: `GET /jobs/{id}` (modelled from the spec — the route is absent from
src/) answers 404 exactly when no Job carries the id, answers the §4.3
projection of a Job carrying the id otherwise, and immediately after a
successful create, looking the returned id up yields a payload whose core
fields equal the creation input. -/
theorem C2_get_job (db : DB) (jid : Nat) (jc : JobCreate) (hwf : jobsWF db)
    (_hnd : jc.skills.Nodup) :
    (get_job_by_id db jid = .error { status_code := 404, detail := "Job not found" } ↔
      ∀ j ∈ db.jobs, j.job_id ≠ jid) ∧
    ((∃ j ∈ db.jobs, j.job_id = jid) →
      ∃ j ∈ db.jobs, j.job_id = jid ∧ get_job_by_id db jid = .ok (projectJob db j)) ∧
    (∃ d, get_job_by_id (create_job db jc).2 (create_job db jc).1.job_id = .ok d ∧
      d.job_title = jc.job_title ∧ d.location = jc.location ∧
      d.min_salary = jc.min_salary ∧ d.max_salary = jc.max_salary ∧
      d.work_setting = jc.work_setting ∧ d.job_category = jc.job_category ∧
      d.experience_level = jc.experience_level ∧ d.company_size = jc.company_size) := by
  obtain ⟨cf1, cf2, cf3⟩ := create_job_frame db jc
  refine ⟨?_, ?_, ?_⟩
  · constructor
    · intro he j hj hid
      cases hfind : db.jobs.find? (fun j => j.job_id = jid) with
      | none =>
        have := List.find?_eq_none.mp hfind j hj
        simp [hid] at this
      | some jf => simp [get_job_by_id, hfind] at he
    · intro habs
      have hfind : db.jobs.find? (fun j => j.job_id = jid) = none :=
        List.find?_eq_none.mpr (fun j hj => by simpa using habs j hj)
      simp [get_job_by_id, hfind]
  · rintro ⟨j0, hj0, hid⟩
    cases hfind : db.jobs.find? (fun j => j.job_id = jid) with
    | none =>
      have := List.find?_eq_none.mp hfind j0 hj0
      simp [hid] at this
    | some jf =>
      refine ⟨jf, List.mem_of_find?_eq_some hfind, ?_, ?_⟩
      · simpa using List.find?_some hfind
      · simp [get_job_by_id, hfind]
  · have hfind : (create_job db jc).2.jobs.find?
        (fun j => j.job_id = (create_job db jc).1.job_id)
        = some (newJobRow jc db.next_job_id
            (findOrCreateCompany db jc.company_name).1.company_id) := by
      rw [cf3, cf1]
      refine find?_append_fresh _ _ _ ?_ ?_
      · intro x hx
        have := hwf x hx
        simp only [decide_eq_true_eq]
        omega
      · simp [newJobRow]
    refine ⟨projectJob (create_job db jc).2
        (newJobRow jc db.next_job_id
          (findOrCreateCompany db jc.company_name).1.company_id),
      ?_, rfl, rfl, rfl, rfl, rfl, rfl, rfl, rfl⟩
    simp [get_job_by_id, hfind]

/-- Witness for C2: in the two-job store, id 5 is absent (404), and a
fresh create round-trips its core fields. -/
theorem C2_witness :
    (get_job_by_id exDB2 5 = .error { status_code := 404, detail := "Job not found" }) ∧
    (∃ d, get_job_by_id (create_job exDB2 exJC).2 (create_job exDB2 exJC).1.job_id = .ok d ∧
      d.job_title = exJC.job_title ∧ d.location = exJC.location ∧
      d.min_salary = exJC.min_salary ∧ d.max_salary = exJC.max_salary ∧
      d.work_setting = exJC.work_setting ∧ d.job_category = exJC.job_category ∧
      d.experience_level = exJC.experience_level ∧ d.company_size = exJC.company_size) := by
  have h := C2_get_job exDB2 5 exJC (by decide) (by decide)
  exact ⟨h.1.mpr (by decide), h.2.2⟩

/-! ## C3 -/

/-- C3, counterexample: `limit = 20000` lies outside the claimed sane
range 1–10000, yet the handler honors it with a normal `.ok` list response
(here: both stored jobs) instead of rejecting it as a
ValidationError/400 — `skip`/`limit` arrive as unconstrained `int` query
parameters (app.py line 154). -/
theorem C3_counterexample :
    ((20000 : Int) < 1 ∨ (10000 : Int) < 20000) ∧
    get_jobs_list (some exDB2) none 0 20000
      = .ok [projectJob exDB2 jobA, projectJob exDB2 jobB] := by
  exact ⟨by decide, rfl⟩

/-- C3, amended: for non-negative `skip`/`limit` the handler returns (as a
normal response, never an error) exactly the projected matching jobs after
dropping `skip` and taking `limit` — in particular at most `limit`
records — but no bound whatsoever is enforced on `limit`: any integer
value is honored as given. -/
theorem C3_amended (db : DB) (search : Option String) (skip limit : Int)
    (hs : 0 ≤ skip) (hl : 0 ≤ limit) :
    ∃ l, get_jobs_list (some db) search skip limit = .ok l ∧
      l.length ≤ limit.toNat ∧
      l = (((db.jobs.filter (fun j => jobMatches search j)).map
            (fun j => projectJob db j)).drop skip.toNat).take limit.toNat := by
  have hcond : ¬ (skip < 0 ∨ limit < 0) := by omega
  refine ⟨_, ?_, List.length_take_le _ _, rfl⟩
  simp only [get_jobs_list]
  rw [if_neg hcond]

/-- Witness for C3's amended theorem at `skip = 0`, `limit = 1`. -/
theorem C3_amended_witness :
    ∃ l, get_jobs_list (some exDB2) none 0 1 = .ok l ∧
      l.length ≤ (1 : Int).toNat ∧
      l = (((exDB2.jobs.filter (fun j => jobMatches none j)).map
            (fun j => projectJob exDB2 j)).drop (0 : Int).toNat).take (1 : Int).toNat :=
  C3_amended exDB2 none 0 1 (by decide) (by decide)

/-! ## C4 -/

/-- C4: PUT /jobs/{id} answers 404 and leaves the state unchanged when the
id is absent; otherwise it replaces the job's entire skill association set
with exactly the requested names (no residual previous association) and
returns the updated Job.  The `skills.Nodup` hypothesis reflects that a
request repeating a skill name violates the association primary key in the
source (`autoflush=False` hides the pending row) and never commits. -/
theorem C4_update_job (db : DB) (jid : Nat) (jc : JobCreate)
    (hwf : skillsWF db) (_hnd : jc.skills.Nodup) :
    ((∀ j ∈ db.jobs, j.job_id ≠ jid) →
      update_job db jid jc
        = (.error { status_code := 404, detail := "Job not found" }, db)) ∧
    ((∃ j ∈ db.jobs, j.job_id = jid) →
      ∃ res, (update_job db jid jc).1 = .ok res ∧ res.job_id = jid ∧
        res.job_title = jc.job_title ∧ res.location = jc.location ∧
        res.min_salary = jc.min_salary ∧ res.max_salary = jc.max_salary ∧
        res.skills = jc.skills.map (fun s => { skill_name := s }) ∧
        assocSkillNames (update_job db jid jc).2 jid = jc.skills) := by
  refine ⟨update_job_absent db jid jc, ?_⟩
  intro hex
  have hu := update_job_found db jid jc hex
  have hassoc := update_job_apply_assoc db jid jc hwf
  refine ⟨(update_job_apply db jid jc).1, by rw [hu], rfl, rfl, rfl, rfl, rfl, ?_, ?_⟩
  · show ((jobSkillRows (update_job_apply db jid jc).2 jid).map
        (fun sk => ({ skill_name := sk.skill_name } : SkillObj)))
      = jc.skills.map (fun s => { skill_name := s })
    have hm := congrArg (List.map (fun n => ({ skill_name := n } : SkillObj))) hassoc
    rw [assocSkillNames, List.map_map] at hm
    exact hm
  · rw [hu]
    exact hassoc

/-- Witness for C4: in the top-skills store, job 1 starts associated with
{python, sql}; updating its skill list to [sql, go] leaves exactly
[sql, go] associated — python is gone. -/
theorem C4_witness :
    assocSkillNames dbTop 1 = ["python", "sql"] ∧
    assocSkillNames (update_job dbTop 1
      { job_title := "t2", location := "l2", company_name := some "acme",
        skills := ["sql", "go"] }).2 1 = ["sql", "go"] := by
  have h := (C4_update_job dbTop 1
    { job_title := "t2", location := "l2", company_name := some "acme",
      skills := ["sql", "go"] } (by decide) (by decide)).2 ⟨jobA, by decide, rfl⟩
  obtain ⟨res, _, _, _, _, _, _, _, hassoc⟩ := h
  exact ⟨by decide, hassoc⟩

/-! ## C5 -/

/-- C5: DELETE /jobs/{id} answers 404 and changes nothing when the id is
absent; otherwise it confirms with the deleted id, removes the Job row and
every association row of that job (keeping all others), and a subsequent
lookup of the id finds nothing. -/
theorem C5_delete_job (db : DB) (jid : Nat) :
    ((∀ j ∈ db.jobs, j.job_id ≠ jid) →
      delete_job db jid
        = (.error { status_code := 404, detail := "Job not found" }, db)) ∧
    ((∃ j ∈ db.jobs, j.job_id = jid) →
      (delete_job db jid).1 = .ok { message := "Job deleted successfully", job_id := jid } ∧
      (∀ j ∈ (delete_job db jid).2.jobs, j.job_id ≠ jid) ∧
      (∀ p ∈ (delete_job db jid).2.job_skills, p.1 ≠ jid) ∧
      (∀ j ∈ db.jobs, j.job_id ≠ jid → j ∈ (delete_job db jid).2.jobs) ∧
      (∀ p ∈ db.job_skills, p.1 ≠ jid → p ∈ (delete_job db jid).2.job_skills) ∧
      get_job_by_id (delete_job db jid).2 jid
        = .error { status_code := 404, detail := "Job not found" }) := by
  refine ⟨delete_job_absent db jid, ?_⟩
  intro hex
  have hd := delete_job_found db jid hex
  rw [hd]
  have hjobs : ∀ j ∈ db.jobs.filter (fun j => j.job_id ≠ jid), j.job_id ≠ jid := by
    intro j hj
    simpa using List.of_mem_filter hj
  refine ⟨rfl, hjobs, ?_, ?_, ?_, ?_⟩
  · intro p hp
    simpa using List.of_mem_filter hp
  · intro j hj hne
    exact List.mem_filter.mpr ⟨hj, by simpa using hne⟩
  · intro p hp hne
    exact List.mem_filter.mpr ⟨hp, by simpa using hne⟩
  · unfold get_job_by_id
    have hfind : (db.jobs.filter (fun j => j.job_id ≠ jid)).find?
        (fun j => j.job_id = jid) = none :=
      List.find?_eq_none.mpr (fun j hj => by simpa using hjobs j hj)
    rw [hfind]

/-- Witness for C5: deleting job 1 from the top-skills store confirms the
id and leaves no association row of job 1. -/
theorem C5_witness :
    (delete_job dbTop 1).1 = .ok { message := "Job deleted successfully", job_id := 1 } ∧
    (∀ p ∈ (delete_job dbTop 1).2.job_skills, p.1 ≠ 1) ∧
    get_job_by_id (delete_job dbTop 1).2 1
      = .error { status_code := 404, detail := "Job not found" } := by
  have h := (C5_delete_job dbTop 1).2 ⟨jobA, by decide, rfl⟩
  exact ⟨h.1, h.2.2.1, h.2.2.2.2.2⟩

/-! ## C6 -/

/-- C6: company lookup during job creation is find-or-create on the name —
two sequential creates with the same new company name leave exactly one
Company row with that name, both created Jobs reference it, and no exposed
operation (create, update, delete) ever removes a Company row. -/
theorem C6_company (db : DB) (jc1 jc2 : JobCreate) (c : String)
    (h1 : jc1.company_name = some c) (h2 : jc2.company_name = some c)
    (hfresh : ∀ co ∈ db.companies, co.company_name ≠ some c) :
    ((create_job (create_job db jc1).2 jc2).2.companies.filter
        (fun co => co.company_name = some c)).length = 1 ∧
    (∃ co ∈ (create_job (create_job db jc1).2 jc2).2.companies,
      co.company_name = some c ∧
      (∃ j1 ∈ (create_job (create_job db jc1).2 jc2).2.jobs,
        j1.job_id = (create_job db jc1).1.job_id ∧
        j1.company_id = some co.company_id) ∧
      (∃ j2 ∈ (create_job (create_job db jc1).2 jc2).2.jobs,
        j2.job_id = (create_job (create_job db jc1).2 jc2).1.job_id ∧
        j2.company_id = some co.company_id)) ∧
    (∀ (d : DB) (jc : JobCreate) (i : Nat), ∀ co ∈ d.companies,
      co ∈ (create_job d jc).2.companies ∧
      co ∈ (update_job d i jc).2.companies ∧
      co ∈ (delete_job d i).2.companies) := by
  have hfull := findOrCreateCompany_fresh db (some c) hfresh
  have hco1 : (findOrCreateCompany db jc1.company_name).1
      = { company_id := db.next_company_id, company_name := some c } := by
    rw [h1, hfull]
  have hcos1 : (findOrCreateCompany db jc1.company_name).2.companies
      = db.companies ++ [{ company_id := db.next_company_id, company_name := some c }] := by
    rw [h1, hfull]
  obtain ⟨f11, f12, f13⟩ := create_job_frame db jc1
  have hcompanies1 : (create_job db jc1).2.companies
      = db.companies ++ [{ company_id := db.next_company_id, company_name := some c }] :=
    f12.trans hcos1
  have hjobs1 : (create_job db jc1).2.jobs
      = db.jobs ++ [newJobRow jc1 db.next_job_id db.next_company_id] := by
    rw [f13, hco1]
  have hf2 : (create_job db jc1).2.companies.find? (fun co => co.company_name = some c)
      = some { company_id := db.next_company_id, company_name := some c } := by
    rw [hcompanies1]
    refine find?_append_fresh _ _ _ ?_ (by simp)
    intro x hx
    simpa using hfresh x hx
  have hfc2e := findOrCreateCompany_found (create_job db jc1).2 (some c) _ hf2
  have hco2 : (findOrCreateCompany (create_job db jc1).2 jc2.company_name).1
      = { company_id := db.next_company_id, company_name := some c } := by
    rw [h2, hfc2e]
  have hcos2 : (findOrCreateCompany (create_job db jc1).2 jc2.company_name).2.companies
      = (create_job db jc1).2.companies := by
    rw [h2, hfc2e]
  obtain ⟨f21, f22, f23⟩ := create_job_frame (create_job db jc1).2 jc2
  have hcompanies2 : (create_job (create_job db jc1).2 jc2).2.companies
      = db.companies ++ [{ company_id := db.next_company_id, company_name := some c }] := by
    rw [f22, hcos2, hcompanies1]
  have hjobs2 : (create_job (create_job db jc1).2 jc2).2.jobs
      = (db.jobs ++ [newJobRow jc1 db.next_job_id db.next_company_id])
        ++ [newJobRow jc2 (create_job db jc1).2.next_job_id db.next_company_id] := by
    rw [f23, hco2, hjobs1]
  refine ⟨?_, ?_, ?_⟩
  · rw [hcompanies2, List.filter_append]
    have hnil : db.companies.filter (fun co => co.company_name = some c) = [] :=
      List.filter_eq_nil_iff.mpr (fun co hco => by simpa using hfresh co hco)
    rw [hnil]
    simp
  · refine ⟨{ company_id := db.next_company_id, company_name := some c }, ?_, rfl, ?_, ?_⟩
    · rw [hcompanies2]
      exact List.mem_append_right _ (by simp)
    · refine ⟨newJobRow jc1 db.next_job_id db.next_company_id, ?_, ?_, rfl⟩
      · rw [hjobs2]
        exact List.mem_append_left _ (List.mem_append_right _ (by simp))
      · rw [f11]
        rfl
    · refine ⟨newJobRow jc2 (create_job db jc1).2.next_job_id db.next_company_id, ?_, ?_, rfl⟩
      · rw [hjobs2]
        exact List.mem_append_right _ (by simp)
      · rw [f21]
        rfl
  · intro d jc i co hco
    refine ⟨?_, ?_, ?_⟩
    · rw [(create_job_frame d jc).2.1]
      exact (findOrCreateCompany_frame d jc.company_name).2.2.2.2.2.2.2 co hco
    · unfold update_job
      cases hf : d.jobs.find? (fun j => j.job_id = i) with
      | none => exact hco
      | some jf =>
        show co ∈ (update_job_apply d i jc).2.companies
        rw [update_job_apply_companies]
        exact (findOrCreateCompany_frame d jc.company_name).2.2.2.2.2.2.2 co hco
    · unfold delete_job
      cases hf : d.jobs.find? (fun j => j.job_id = i) with
      | none => exact hco
      | some jf => exact hco

/-- Witness for C6: two creates against the empty store for company
"acme" leave exactly one matching Company row. -/
theorem C6_witness :
    ((create_job (create_job ({} : DB) exJC).2 exJC2).2.companies.filter
        (fun co => co.company_name = some "acme")).length = 1 :=
  (C6_company {} exJC exJC2 "acme" rfl rfl (by decide)).1

/-! ## C7 -/

/-- C7, counterexample: over minimum salaries [0, 1] the handler's
aggregate yields `int(AVG) = 0`, which is not the arithmetic mean 1/2 —
`result * count ≠ sum`.  The code truncates (`int(avg)`, app.py line 135);
the claim's unconditional "returns the arithmetic mean" fails whenever the
sum is not divisible by the count. -/
theorem C7_counterexample :
    minSalaryVals exDBfrac = [0, 1] ∧
    avgMinSalary exDBfrac = 0 ∧
    avgMinSalary exDBfrac * ((minSalaryVals exDBfrac).length : Int)
      ≠ (minSalaryVals exDBfrac).sum := by
  exact ⟨by decide, by decide, by decide⟩

/-- C7, amended: the aggregate returns the integer truncation of the
arithmetic mean of the non-null minimum salaries — exactly the arithmetic
mean whenever the count divides the sum (as in the spec's [50000, 70000,
90000] example) — and 0 on an empty Job table, also as reported by the
analytics summary. -/
theorem C7_amended (db : DB) :
    (minSalaryVals db ≠ [] →
      ((minSalaryVals db).length : Int) ∣ (minSalaryVals db).sum →
      avgMinSalary db * ((minSalaryVals db).length : Int) = (minSalaryVals db).sum) ∧
    (db.jobs = [] → avgMinSalary db = 0) ∧
    (db.jobs = [] → (get_analytics_summary (.up db FailCfg.none')).avg_salary = 0) := by
  refine ⟨?_, ?_, ?_⟩
  · intro hne hdvd
    simp only [avgMinSalary]
    have hlen : ¬ (minSalaryVals db).length = 0 := by
      simpa [List.length_eq_zero] using hne
    rw [if_neg hlen]
    exact Int.tdiv_mul_cancel_of_tmod_eq_zero (Int.tmod_eq_zero_of_dvd hdvd)
  · intro h
    simp [avgMinSalary, minSalaryVals, h]
  · intro h
    simp [get_analytics_summary, FailCfg.none', h, summaryDefaults]

/-- Witness for C7's amended theorem: the spec's salary dataset
[50000, 70000, 90000] averages to exactly 70000. -/
theorem C7_amended_witness :
    minSalaryVals exDBsal = [50000, 70000, 90000] ∧
    avgMinSalary exDBsal * ((minSalaryVals exDBsal).length : Int)
      = (minSalaryVals exDBsal).sum ∧
    avgMinSalary exDBsal = 70000 := by
  refine ⟨by decide, (C7_amended exDBsal).1 (by decide) ⟨70000, by decide⟩, by decide⟩

/-! ## C8 -/

/-- C8: the top-skills aggregate returns at most 10 entries, sorted
descending by count, and each entry pairs a stored skill's name with its
number of associated Jobs (association rows are pairwise distinct by the
composite primary key, so the row count is the distinct-job count; the
name-nodup hypothesis is the Skill table's unique-name constraint). -/
theorem C8_topSkills (db : DB) (hrows : db.job_skills.Nodup)
    (_hnames : (db.skills.map (fun sk => sk.skill_name)).Nodup) :
    (topSkills db).length ≤ 10 ∧
    (topSkills db).Pairwise (fun a b => b.2 ≤ a.2) ∧
    (∀ p ∈ topSkills db, ∃ sk ∈ db.skills, sk.skill_name = p.1 ∧ p.2 ≠ 0 ∧
      p.2 = (((skillAssocRows db sk.skill_id).map (fun q => q.1)).dedup).length) := by
  haveI hT : IsTrans (String × Nat) (fun a b => b.2 ≤ a.2) :=
    ⟨fun a b c hab hbc => Nat.le_trans hbc hab⟩
  haveI hTot : IsTotal (String × Nat) (fun a b => b.2 ≤ a.2) :=
    ⟨fun a b => Nat.le_total b.2 a.2⟩
  simp only [topSkills]
  refine ⟨List.length_take_le _ _, ?_, ?_⟩
  · exact List.Pairwise.sublist (List.take_sublist _ _) (List.sorted_insertionSort _ _)
  · intro p hp
    have hp1 : p ∈ List.insertionSort (fun a b => b.2 ≤ a.2)
        ((db.skills.map (fun sk =>
          (sk.skill_name, (skillAssocRows db sk.skill_id).length))).filter
            (fun q => q.2 ≠ 0)) :=
      List.mem_of_mem_take hp
    have hp2 : p ∈ (db.skills.map (fun sk =>
        (sk.skill_name, (skillAssocRows db sk.skill_id).length))).filter
          (fun q => q.2 ≠ 0) :=
      (List.perm_insertionSort _ _).mem_iff.mp hp1
    have hne : p.2 ≠ 0 := by simpa using List.of_mem_filter hp2
    obtain ⟨sk, hsk, he⟩ := List.mem_map.mp (List.mem_of_mem_filter hp2)
    refine ⟨sk, hsk, congrArg Prod.fst he, hne, ?_⟩
    rw [assoc_rows_count db sk.skill_id hrows]
    exact (congrArg Prod.snd he).symm

/-- Witness for C8: over jobs A with skills {python, sql} and B with
{python}, the aggregate ranks python (count 2) above sql (count 1). -/
theorem C8_witness :
    dbTop.job_skills.Nodup ∧
    topSkills dbTop = [("python", 2), ("sql", 1)] ∧
    (topSkills dbTop).length ≤ 10 ∧
    (topSkills dbTop).Pairwise (fun a b => b.2 ≤ a.2) := by
  have h := C8_topSkills dbTop (by decide) (by decide)
  exact ⟨by decide, by decide, h.1, h.2.1⟩

/-! ## C9 -/

/-- C9: the projection of a Job carries every alias with the same value as
its canonical field (title aliases = job_title, location aliases =
location, every salary alias including `salary_in_usd` = min_salary,
employment-type aliases = employment_type), a nested company object that
is null exactly when the Job resolves no company, and the list of nested
skill objects; the projection is a pure function of the loaded row. -/
theorem C9_projection (db : DB) (j : Job) :
    ((projectJob db j).job_title = j.job_title ∧
     (projectJob db j).location = j.location ∧
     (projectJob db j).min_salary = j.min_salary ∧
     (projectJob db j).employment_type = j.employment_type) ∧
    ((projectJob db j).Job_Title = (projectJob db j).job_title ∧
     (projectJob db j).Job_Role = (projectJob db j).job_title ∧
     (projectJob db j).job_role = (projectJob db j).job_title ∧
     (projectJob db j).title = (projectJob db j).job_title ∧
     (projectJob db j).Role = (projectJob db j).job_title) ∧
    ((projectJob db j).Location = (projectJob db j).location ∧
     (projectJob db j).company_location = (projectJob db j).location ∧
     (projectJob db j).employee_residence = (projectJob db j).location) ∧
    ((projectJob db j).salary = (projectJob db j).min_salary ∧
     (projectJob db j).Salary = (projectJob db j).min_salary ∧
     (projectJob db j).Salary_USD = (projectJob db j).min_salary ∧
     (projectJob db j).salary_usd = (projectJob db j).min_salary ∧
     (projectJob db j).salary_in_usd = (projectJob db j).min_salary ∧
     (projectJob db j).salaryInUSD = (projectJob db j).min_salary) ∧
    ((projectJob db j).Employment_Type = (projectJob db j).employment_type ∧
     (projectJob db j).employmentType = (projectJob db j).employment_type ∧
     (projectJob db j).EmploymentType = (projectJob db j).employment_type ∧
     (projectJob db j).employment = (projectJob db j).employment_type) ∧
    ((projectJob db j).company
        = (lookupCompany db j.company_id).map (fun co => { company_name := co.company_name }) ∧
     ((projectJob db j).company = none ↔ lookupCompany db j.company_id = none)) ∧
    (projectJob db j).skills
      = (jobSkillRows db j.job_id).map (fun sk => { skill_name := sk.skill_name }) := by
  refine ⟨⟨rfl, rfl, rfl, rfl⟩, ⟨rfl, rfl, rfl, rfl, rfl⟩, ⟨rfl, rfl, rfl⟩,
    ⟨rfl, rfl, rfl, rfl, rfl, rfl⟩, ⟨rfl, rfl, rfl, rfl⟩, ⟨rfl, ?_⟩, rfl⟩
  show (lookupCompany db j.company_id).map
      (fun co => ({ company_name := co.company_name } : CompanyObj)) = none
    ↔ lookupCompany db j.company_id = none
  exact Option.map_eq_none'

/-! ## C10 -/

/-- Fixture: a request carrying the falsy year 0. -/
def jcY0 : JobCreate :=
  { job_title := "t", location := "l", company_name := some "acme",
    work_year := some 0 }

/-- C10: `work_year or 2024` never stores 0 — an omitted, null or zero
request year is stored as 2024 and any non-zero year is stored unchanged,
on both the create and the update path. -/
theorem C10_work_year (db : DB) (jc : JobCreate) (jid : Nat)
    (_hnd : jc.skills.Nodup) :
    (pyOrInt jc.work_year 2024 ≠ 0) ∧
    (jc.work_year = none ∨ jc.work_year = some 0 → pyOrInt jc.work_year 2024 = 2024) ∧
    (∀ y : Int, jc.work_year = some y → y ≠ 0 → pyOrInt jc.work_year 2024 = y) ∧
    (∃ j ∈ (create_job db jc).2.jobs, j.job_id = (create_job db jc).1.job_id ∧
      j.work_year = some (pyOrInt jc.work_year 2024)) ∧
    ((∃ j ∈ db.jobs, j.job_id = jid) →
      ∃ j ∈ (update_job db jid jc).2.jobs, j.job_id = jid ∧
        j.work_year = some (pyOrInt jc.work_year 2024)) := by
  obtain ⟨cf1, cf2, cf3⟩ := create_job_frame db jc
  refine ⟨?_, ?_, ?_, ?_, ?_⟩
  · cases hw : jc.work_year with
    | none => simp [pyOrInt]
    | some v => by_cases hv : v = 0 <;> simp [pyOrInt, hv]
  · rintro (h | h) <;> simp [pyOrInt, h]
  · intro y hy hne
    simp [pyOrInt, hy, hne]
  · refine ⟨newJobRow jc db.next_job_id
        (findOrCreateCompany db jc.company_name).1.company_id, ?_, ?_, rfl⟩
    · rw [cf3]
      exact List.mem_append_right _ (by simp)
    · rw [cf1]
      rfl
  · rintro ⟨j0, hj0, hid⟩
    have hu := update_job_found db jid jc ⟨j0, hj0, hid⟩
    have h2 : (update_job db jid jc).2.jobs
        = db.jobs.map (fun j => if j.job_id = jid
            then newJobRow jc jid (findOrCreateCompany db jc.company_name).1.company_id
            else j) := by
      rw [congrArg Prod.snd hu]
      exact update_job_apply_jobs db jid jc
    rw [h2]
    refine ⟨newJobRow jc jid
        (findOrCreateCompany db jc.company_name).1.company_id, ?_, rfl, rfl⟩
    have hmem := List.mem_map_of_mem (fun j => if j.job_id = jid
        then newJobRow jc jid (findOrCreateCompany db jc.company_name).1.company_id
        else j) hj0
    simpa [hid] using hmem

/-- Witness for C10: a request with `work_year = 0` stores 2024. -/
theorem C10_witness :
    pyOrInt jcY0.work_year 2024 = 2024 ∧
    (∃ j ∈ (create_job ({} : DB) jcY0).2.jobs,
      j.job_id = (create_job ({} : DB) jcY0).1.job_id ∧
      j.work_year = some (pyOrInt jcY0.work_year 2024)) := by
  have h := C10_work_year {} jcY0 1 (by decide)
  exact ⟨h.2.1 (Or.inr rfl), h.2.2.2.1⟩

end JobTrends
